import Mathlib

/-!
# Verification of the SMAC3 black-box facade and initial-design contracts

Shallow embedding of `src/smac/facade/black_box.py`, the initial-design
behaviour exercised by `src/tests/test_initial_design/test_initial_design.py`,
and the RunHistory / adaptive-capping contracts of the specification.

Configurations are abstracted to natural-number identifiers: the facade and
initial-design code never inspects a configuration's contents, it only moves
configurations around, so structural equality on identifiers is a faithful
model of the identity the code relies on.
-/

namespace SMAC

/-- The configuration-space collaborator, as the facade consumes it:
the number of hyperparameters (`get_hyperparameters()` length), the total
number of addressable configurations in a finite space, and the defined
default configuration (`get_default_configuration()`). -/
structure ConfigSpace where
  nHyperparameters : ℕ
  spaceSize : ℕ
  defaultConfiguration : ℕ
deriving DecidableEq, Repr

/-- The `smac.config.Config` object, restricted to the fields the
black-box facade reads. -/
structure Config where
  configspace : ConfigSpace
  deterministic : Bool
  seed : ℕ
  n_runs : ℕ
  instances : List ℕ
  algorithm_walltime_limit : Option ℚ
deriving DecidableEq, Repr

/-- A `Scenario` as passed to the initial designs in the tests; it carries
the configuration space. -/
structure Scenario where
  configspace : ConfigSpace
deriving DecidableEq, Repr

/-! ## Models returned by `SMAC4BB.get_model` (black_box.py lines 83-123)

The numerical internals (kernel math, RNG draws for the seed argument) are
external collaborators; the embedding keeps the argument wiring the facade
itself computes: the kernel is summarised by `len(kernel.theta)`, and the
seed field records the `config.seed` the facade's generator was seeded
with, standing in for the drawn sub-seed. -/

inductive BaseModel
  | gaussianProcess (seed : ℕ)
  | mcmcGaussianProcess (n_mcmc_walkers chain_length burnin_steps seed : ℕ)
deriving DecidableEq, Repr

/-- Embedding of `SMAC4BB.get_model`: validates `model_type`, and for
`gp_mcmc` computes `n_mcmc_walkers = 3 * len(kernel.theta)` with the
odd-to-even increment, exactly as lines 103-119 of black_box.py. -/
def get_model (config : Config) (model_type : String) (kernel_theta_len : ℕ) :
    Except String BaseModel :=
  if model_type ∉ ["gp", "gp_mcmc"] then
    .error ("model_type " ++ model_type ++ " not in available model types")
  else if model_type = "gp" then
    .ok (.gaussianProcess config.seed)
  else
    let n0 := 3 * kernel_theta_len
    let n_mcmc_walkers := if n0 % 2 = 1 then n0 + 1 else n0
    .ok (.mcmcGaussianProcess n_mcmc_walkers 250 250 config.seed)

/-! ## Intensifier construction (black_box.py lines 208-234) -/

/-- The argument record the facade passes to the `Intensifier` constructor;
the intensification engine itself is an external collaborator here, so the
embedding records the constructed arguments. -/
structure IntensifierArgs where
  instances : List ℕ
  algorithm_walltime_limit : Option ℚ
  deterministic : Bool
  adaptive_capping_slackfactor : ℚ
  min_challenger : ℕ
  race_against : ℕ
  min_config_calls : ℕ
  max_config_calls : ℕ
  seed : ℕ
deriving DecidableEq, Repr

/-- Default value of `adaptive_capping_slackfactor` in
`SMAC4BB.get_intensifier` (the Python literal `1.2`). -/
def default_adaptive_capping_slackfactor : ℚ := 6 / 5

/-- Embedding of `SMAC4BB.get_intensifier`: if the config is deterministic
the local `min_challenger` is overwritten with 1 before the `Intensifier`
is constructed (lines 217-219). -/
def get_intensifier (config : Config) (adaptive_capping_slackfactor : ℚ)
    (min_challenger : ℕ) (min_config_calls : ℕ) (max_config_calls : ℕ) :
    IntensifierArgs :=
  let min_challenger := if config.deterministic then 1 else min_challenger
  { instances := config.instances
    algorithm_walltime_limit := config.algorithm_walltime_limit
    deterministic := config.deterministic
    adaptive_capping_slackfactor := adaptive_capping_slackfactor
    min_challenger := min_challenger
    race_against := config.configspace.defaultConfiguration
    min_config_calls := min_config_calls
    max_config_calls := max_config_calls
    seed := config.seed }

/-! ## Initial design construction by the facade (black_box.py lines 236-257) -/

/-- Error taxonomy of the specification (§7). `configurationError` covers
malformed or out-of-range setup (the Python code surfaces these as
`ValueError`); `abstractNotImplemented` is the fatal error raised when an
abstract base strategy is invoked directly. -/
inductive SMACError
  | configurationError (msg : String)
  | abstractNotImplemented
deriving DecidableEq, Repr

/-- The argument record passed to the `SobolInitialDesign` constructor. -/
structure SobolInitialDesignArgs where
  configspace : ConfigSpace
  n_runs : ℕ
  configs : Option (List ℕ)
  n_configs_per_hyperparameter : ℕ
  max_config_fracs : ℚ
  seed : ℕ
deriving DecidableEq, Repr

/-- Embedding of `SMAC4BB.get_initial_design`: rejects configuration spaces
with more than 21201 hyperparameters (the Sobol sampler's dimension
capacity) before constructing the `SobolInitialDesign` (lines 244-257). -/
def get_initial_design (config : Config) (initial_configs : Option (List ℕ))
    (n_configs_per_hyperparameter : ℕ) (max_config_fracs : ℚ) :
    Except SMACError SobolInitialDesignArgs :=
  if 21201 < config.configspace.nHyperparameters then
    .error (.configurationError
      "The default initial design Sobol sequence can only handle up to 21201 dimensions.")
  else
    .ok { configspace := config.configspace
          n_runs := config.n_runs
          configs := initial_configs
          n_configs_per_hyperparameter := n_configs_per_hyperparameter
          max_config_fracs := max_config_fracs
          seed := config.seed }

/-! ## Random configuration chooser (black_box.py lines 259-263)

The source evaluates `np.default_rng(seed=config.seed)`.  `default_rng`
is an attribute of the `numpy.random` submodule, not of the top-level
`numpy` module (the same file correctly writes `np.random.default_rng`
at lines 92 and 127), so this attribute access raises `AttributeError`. -/

/-- A Python `AttributeError`, carrying the missing attribute's name. -/
inductive PyError
  | attributeError (attr : String)
deriving DecidableEq, Repr

/-- Top-level attribute names of the external numpy module that this file
uses; modelled from the numpy API (the source itself accesses
`np.random.default_rng`, `np.where`, `np.array`, `np.ones`, `np.exp`).
`default_rng` is only reachable through the `random` submodule. -/
def numpyTopLevelAttributes : List String :=
  ["random", "where", "array", "ones", "exp"]

/-- Attribute lookup on the numpy module: succeeds exactly on the
attributes numpy exports at top level. -/
def np_getattr (name : String) : Except PyError Unit :=
  if name ∈ numpyTopLevelAttributes then .ok () else .error (.attributeError name)

/-- The `ChooserProb` object the facade intends to build. -/
structure ChooserProb where
  prob : ℚ
  seed : ℕ
deriving DecidableEq, Repr

/-- The facade's default random-injection fraction
`0.08447232371720552`. -/
def default_random_probability : ℚ := 8447232371720552 / 100000000000000000

/-- Embedding of `SMAC4BB.get_random_configuration_chooser`: the attribute
access `np.default_rng` is evaluated before `ChooserProb` can be
constructed. -/
def get_random_configuration_chooser (config : Config) (random_probability : ℚ) :
    Except PyError ChooserProb :=
  match np_getattr "default_rng" with
  | .error e => .error e
  | .ok _ => .ok { prob := random_probability, seed := config.seed }

/-! ## Adaptive capping -/

/-- Modelled from the spec: the Intensifier's adaptive-capping cutoff
(the intensification module is not under src/; the facade only passes
`algorithm_walltime_limit` and `adaptive_capping_slackfactor` into it).
"the maximum allowed per-trial runtime (cutoff) for a challenger trial is
`min(global_algorithm_walltime_limit, slack_factor ×
cumulative_incumbent_runtime_on_instances_used_so_far)`". -/
def adaptiveCap (walltimeLimit slackFactor cumulativeIncumbentRuntime : ℚ) : ℚ :=
  min walltimeLimit (slackFactor * cumulativeIncumbentRuntime)

/-! ## RunHistory (spec §3, §4.1) -/

/-- Trial status, spec §3: one of SUCCESS, CRASHED, TIMEOUT, MEMOUT,
CAPPED, RUNNING. -/
inductive StatusType
  | success | crashed | timeout | memout | capped | running
deriving DecidableEq, Repr

/-- Outcome of a trial, spec §3: cost, measured runtime, status. -/
structure RunValue where
  cost : ℚ
  time : ℚ
  status : StatusType
deriving DecidableEq, Repr

/-- Key of one evaluation trial, spec §3: (configuration identity,
instance identifier or null, seed, budget or null). -/
structure RunKey where
  config_id : ℕ
  instance_id : Option ℕ
  seed : Option ℕ
  budget : Option ℚ
deriving DecidableEq, Repr

/-- RunHistory, spec §3: an insertion-ordered mapping from RunKey to
RunValue. -/
def RunHistory := List (RunKey × RunValue)

/-- Spec §8 equates the non-censored observations with the non-CAPPED
ones for cost aggregation: "returns the mean of exactly those
non-censored values and ignores CAPPED entries". -/
def RunValue.isCensored (v : RunValue) : Bool :=
  v.status = .capped

inductive RunHistoryError
  | insufficientData
deriving DecidableEq, Repr

/-- The recorded RunValues of one configuration on an instance/seed
subset: for each (instance, seed) pair, the first record of the
configuration on that pair. -/
def observationsOn (rh : RunHistory) (config_id : ℕ)
    (subset : List (Option ℕ × Option ℕ)) : List RunValue :=
  subset.filterMap fun is =>
    (rh.find? fun kv =>
      kv.1.config_id = config_id ∧ kv.1.instance_id = is.1 ∧ kv.1.seed = is.2).map
      Prod.snd

/-- Modelled from the spec: `RunHistory.cost_of` (the runhistory module is
not under src/). "computes an aggregate (default: arithmetic mean over
the subset) over only non-censored observations, and fails with
`InsufficientDataError` if the subset has zero non-censored
observations". -/
def cost_of (rh : RunHistory) (config_id : ℕ)
    (subset : List (Option ℕ × Option ℕ)) : Except RunHistoryError ℚ :=
  let uncensored := (observationsOn rh config_id subset).filter
    fun v => ¬ v.isCensored
  if uncensored.isEmpty then
    .error .insufficientData
  else
    .ok ((uncensored.map RunValue.cost).sum / uncensored.length)

/-! ## Initial design (spec §4.5, tests in src/tests/test_initial_design)

The initial_design module is not under src/; its behaviour is modelled
from spec §4.5 and pinned down by the tests, which are source code of
this repository:
- `test_multi_config_design`: the base class with an explicit config list
  returns exactly that list from `select_configurations`;
- `test_single_default_config_design`: `DefaultInitialDesign` returns
  exactly the space's default configuration;
- `test_config_numbers`: the resolved count is `n_configs` if given,
  else the explicit list's length, else
  `n_hyperparameters * n_configs_per_hyperparameter`; too large a count,
  or no count source at all, raises at construction;
- `test_select_configurations`: the base class without an explicit list
  raises `NotImplementedError` from `select_configurations`. -/

/-- Selection strategies modelled: the abstract base (no override) and the
default-configuration design. -/
inductive DesignStrategy
  | base
  | defaultDesign
deriving DecidableEq, Repr

/-- A constructed initial design. -/
structure InitialDesign where
  strategy : DesignStrategy
  configs : Option (List ℕ)
  n_configs : ℕ
  configspace : ConfigSpace
deriving DecidableEq, Repr

/-- The resolved number of initial configurations: the explicit list's
length if a list is given, else the explicit `n_configs`, else
`n_hyperparameters * n_configs_per_hyperparameter`; `none` when no count
source was provided. -/
def resolvedNConfigs (scenario : Scenario) (configs : Option (List ℕ))
    (n_configs : Option ℕ) (n_configs_per_hyperparameter : Option ℕ) : Option ℕ :=
  match configs with
  | some cs => some cs.length
  | none =>
    match n_configs with
    | some n => some n
    | none =>
      n_configs_per_hyperparameter.map
        fun k => scenario.configspace.nHyperparameters * k

/-- Modelled from the spec: InitialDesign construction and its validation
(the initial_design module is not under src/). Construction fails with a
`configurationError` when no count source is provided, or when the
resolved count exceeds the number of addressable configurations in the
finite space; sampling happens only later, in `select_configurations`. -/
def InitialDesign.make (strategy : DesignStrategy) (scenario : Scenario)
    (configs : Option (List ℕ)) (n_configs : Option ℕ)
    (n_configs_per_hyperparameter : Option ℕ) :
    Except SMACError InitialDesign :=
  match resolvedNConfigs scenario configs n_configs n_configs_per_hyperparameter with
  | none =>
    .error (.configurationError
      "One of n_configs, configs or n_configs_per_hyperparameter must be provided.")
  | some n =>
    if scenario.configspace.spaceSize < n then
      .error (.configurationError
        "Initial budget is higher than the number of configurations in the configuration space.")
    else
      .ok { strategy := strategy
            configs := configs
            n_configs := n
            configspace := scenario.configspace }

/-- Modelled from the spec: `select_configurations`. An explicit list is
returned verbatim; otherwise the strategy's selection runs, and the
abstract base has none (`AbstractNotImplementedError`), while the default
design returns exactly the space's default configuration. -/
def InitialDesign.select_configurations (d : InitialDesign) :
    Except SMACError (List ℕ) :=
  match d.configs with
  | some cs => .ok cs
  | none =>
    match d.strategy with
    | .base => .error .abstractNotImplemented
    | .defaultDesign => .ok [d.configspace.defaultConfiguration]

/-! ## Concrete sample data used by the witnesses -/

/-- A small configuration space: 3 hyperparameters, 100 addressable
configurations, default configuration 42. -/
def sampleSpace : ConfigSpace :=
  { nHyperparameters := 3, spaceSize := 100, defaultConfiguration := 42 }

def sampleScenario : Scenario := { configspace := sampleSpace }

/-- A deterministic sample Config over `sampleSpace`. -/
def sampleConfig : Config :=
  { configspace := sampleSpace
    deterministic := true
    seed := 5
    n_runs := 50
    instances := [0, 1]
    algorithm_walltime_limit := some 10 }

/-- A configuration space with 21202 hyperparameters, beyond the Sobol
sampler's capacity. -/
def bigSpace : ConfigSpace :=
  { nHyperparameters := 21202, spaceSize := 100, defaultConfiguration := 0 }

def bigConfig : Config :=
  { configspace := bigSpace
    deterministic := false
    seed := 3
    n_runs := 50
    instances := []
    algorithm_walltime_limit := none }

/-- A sample run history for configuration 0 on three instances with
seed 1: two successful runs (costs 3 and 5) and one CAPPED run
(recorded cost 100). -/
def sampleRunHistory : RunHistory :=
  [ (⟨0, some 0, some 1, none⟩, ⟨3, 1, .success⟩),
    (⟨0, some 1, some 1, none⟩, ⟨100, 5, .capped⟩),
    (⟨0, some 2, some 1, none⟩, ⟨5, 1, .success⟩) ]

/-- The instance/seed subset covering all three recorded trials. -/
def sampleSubset : List (Option ℕ × Option ℕ) :=
  [(some 0, some 1), (some 1, some 1), (some 2, some 1)]

/-- A base-class initial design built from an explicit five-element
configuration list, as in test_multi_config_design. -/
def sampleExplicitDesign : InitialDesign :=
  { strategy := .base
    configs := some [3, 1, 4, 1, 5]
    n_configs := 5
    configspace := sampleSpace }

/-- A default-strategy initial design with requested count 10, as in
test_single_default_config_design. -/
def sampleDefaultDesign : InitialDesign :=
  { strategy := .defaultDesign
    configs := none
    n_configs := 10
    configspace := sampleSpace }

/-- A base-class initial design with only a count, as in
test_select_configurations. -/
def sampleBaseDesign : InitialDesign :=
  { strategy := .base
    configs := none
    n_configs := 15
    configspace := sampleSpace }

end SMAC

namespace SMAC

/-! # Theorems settling the claims -/

/-- C1: for every `min_challenger` argument value passed to
`SMAC4BB.get_intensifier`, if the config has `deterministic` set to true,
the Intensifier is constructed with `min_challenger` equal to 1 (the
passed value is overridden). -/
theorem C1_deterministic_forces_min_challenger_one
    (config : Config) (acs : ℚ) (mc mcc xcc : ℕ)
    (h : config.deterministic = true) :
    (get_intensifier config acs mc mcc xcc).min_challenger = 1 := by
  simp [get_intensifier, h]

/-- C1 witness: at a concrete deterministic config and passed
`min_challenger = 7`, the constructed value is 1. -/
theorem C1_deterministic_forces_min_challenger_one_holds :
    sampleConfig.deterministic = true ∧
      (get_intensifier sampleConfig default_adaptive_capping_slackfactor
        7 1 2000).min_challenger = 1 :=
  ⟨rfl, C1_deterministic_forces_min_challenger_one sampleConfig
    default_adaptive_capping_slackfactor 7 1 2000 rfl⟩

/-- C2: for every kernel with at least one hyperparameter,
`SMAC4BB.get_model` with model_type "gp_mcmc" constructs the
MCMCGaussianProcess with `n_mcmc_walkers = 3 * len(kernel.theta)`,
incremented by 1 exactly when that product is odd, so the walker count
is always even. -/
theorem C2_mcmc_walker_count_even (config : Config) (n : ℕ) (h : 1 ≤ n) :
    ∃ w, get_model config "gp_mcmc" n =
        Except.ok (BaseModel.mcmcGaussianProcess w 250 250 config.seed) ∧
      w = (if 3 * n % 2 = 1 then 3 * n + 1 else 3 * n) ∧ w % 2 = 0 := by
  refine ⟨if 3 * n % 2 = 1 then 3 * n + 1 else 3 * n, rfl, rfl, ?_⟩
  rcases Nat.mod_two_eq_zero_or_one (3 * n) with h2 | h2 <;> simp [h2] <;> omega

/-- C2 witness: a kernel with one hyperparameter gives 3 * 1 = 3 walkers,
odd, incremented to 4, which is even. -/
theorem C2_mcmc_walker_count_even_holds :
    1 ≤ 1 ∧ ∃ w, get_model sampleConfig "gp_mcmc" 1 =
        Except.ok (BaseModel.mcmcGaussianProcess w 250 250 sampleConfig.seed) ∧
      w = (if 3 * 1 % 2 = 1 then 3 * 1 + 1 else 3 * 1) ∧ w % 2 = 0 :=
  ⟨le_refl 1, C2_mcmc_walker_count_even sampleConfig 1 (le_refl 1)⟩

/-- C3: for every Config, `SMAC4BB.get_random_configuration_chooser`
never returns a ChooserProb: it unconditionally raises `AttributeError`
because `default_rng` is not a top-level attribute of the numpy module
(the correct name is `np.random.default_rng`), so the random-injection
fraction is never installed. -/
theorem C3_random_chooser_raises_attribute_error (config : Config) (p : ℚ) :
    get_random_configuration_chooser config p =
      Except.error (PyError.attributeError "default_rng") := rfl

/-- C4: for a fixed slack factor s > 1 and fixed walltime limit W, the
adaptive cap `min(W, s * r)` is monotonically non-decreasing in the
cumulative incumbent runtime r, and the facade's default slack factor
1.2 satisfies s > 1. -/
theorem C4_adaptive_cap_monotone (W s r₁ r₂ : ℚ) (hs : 1 < s) (hr : r₁ ≤ r₂) :
    adaptiveCap W s r₁ ≤ adaptiveCap W s r₂ ∧
      1 < default_adaptive_capping_slackfactor := by
  refine ⟨min_le_min le_rfl ?_, by norm_num [default_adaptive_capping_slackfactor]⟩
  exact mul_le_mul_of_nonneg_left hr (le_of_lt (lt_trans zero_lt_one hs))

/-- C4 witness: at W = 10, s = 6/5, r₁ = 1, r₂ = 2 the cap is
non-decreasing and the default slack factor exceeds 1. -/
theorem C4_adaptive_cap_monotone_holds :
    (1 : ℚ) < 6 / 5 ∧ (1 : ℚ) ≤ 2 ∧
      (adaptiveCap 10 (6 / 5) 1 ≤ adaptiveCap 10 (6 / 5) 2 ∧
        1 < default_adaptive_capping_slackfactor) :=
  ⟨by norm_num, by norm_num,
    C4_adaptive_cap_monotone 10 (6 / 5) 1 2 (by norm_num) (by norm_num)⟩

/-- Filtering the non-censored observations is filtering out exactly the
CAPPED entries. -/
lemma filter_uncensored_eq (l : List RunValue) :
    (l.filter fun v => ¬ v.isCensored) =
      l.filter fun v => v.status ≠ StatusType.capped := by
  induction l with
  | nil => rfl
  | cons a t ih =>
    by_cases hc : a.status = StatusType.capped <;>
      simp [List.filter_cons, RunValue.isCensored, hc, ih]

/-- C5: for every configuration and instance/seed subset with at least one
non-censored observation, cost_of returns the arithmetic mean of exactly
the non-censored observed costs, ignoring CAPPED entries; with zero
non-censored observations it fails with InsufficientDataError. -/
theorem C5_cost_of_mean_of_uncensored (rh : RunHistory) (c : ℕ)
    (S : List (Option ℕ × Option ℕ)) :
    ((observationsOn rh c S).filter (fun v => v.status ≠ StatusType.capped) ≠ [] →
      cost_of rh c S = Except.ok
        ((((observationsOn rh c S).filter
            (fun v => v.status ≠ StatusType.capped)).map RunValue.cost).sum /
          ((observationsOn rh c S).filter
            (fun v => v.status ≠ StatusType.capped)).length)) ∧
    ((observationsOn rh c S).filter (fun v => v.status ≠ StatusType.capped) = [] →
      cost_of rh c S = Except.error RunHistoryError.insufficientData) := by
  simp only [cost_of]
  rw [filter_uncensored_eq]
  constructor
  · intro hne
    rw [if_neg (by simpa using hne)]
  · intro he
    rw [if_pos (by rw [he]; rfl)]

/-- C5 witness: on the sample run history the two successful costs 3 and 5
are averaged to 4 and the CAPPED cost 100 is ignored. -/
theorem C5_cost_of_mean_of_uncensored_holds :
    ((observationsOn sampleRunHistory 0 sampleSubset).filter
        (fun v => v.status ≠ StatusType.capped) ≠ []) ∧
      cost_of sampleRunHistory 0 sampleSubset = Except.ok 4 := by
  refine ⟨by decide, ?_⟩
  have h := (C5_cost_of_mean_of_uncensored sampleRunHistory 0 sampleSubset).1 (by decide)
  rw [h]
  have hobs : observationsOn sampleRunHistory 0 sampleSubset =
      [⟨3, 1, .success⟩, ⟨100, 5, .capped⟩, ⟨5, 1, .success⟩] := by
    simp [observationsOn, sampleRunHistory, sampleSubset, List.find?]
  have hne : StatusType.success ≠ StatusType.capped := by decide
  rw [hobs]
  norm_num [List.filter_cons, List.filter_nil, hne]

/-- C6: for every explicit configuration list of size k passed to
InitialDesign together with any n_configs value, select_configurations
returns exactly those k configurations in the original order, and the
design's resolved n_configs equals k (the explicit n_configs argument
is ignored). -/
theorem C6_explicit_configs_returned_verbatim (strat : DesignStrategy)
    (scen : Scenario) (cs : List ℕ) (nc nphp : Option ℕ) (d : InitialDesign)
    (h : InitialDesign.make strat scen (some cs) nc nphp = Except.ok d) :
    d.select_configurations = Except.ok cs ∧ d.n_configs = cs.length := by
  unfold InitialDesign.make resolvedNConfigs at h
  by_cases hlt : scen.configspace.spaceSize < cs.length
  · simp [hlt] at h
  · simp only [hlt, if_false] at h
    cases h
    exact ⟨rfl, rfl⟩

/-- C6 witness: a 5-element explicit list with n_configs = 10 yields the
same 5 configurations in order and a resolved count of 5. -/
theorem C6_explicit_configs_returned_verbatim_holds :
    InitialDesign.make DesignStrategy.base sampleScenario
        (some [3, 1, 4, 1, 5]) (some 10) none = Except.ok sampleExplicitDesign ∧
      (sampleExplicitDesign.select_configurations = Except.ok [3, 1, 4, 1, 5] ∧
        sampleExplicitDesign.n_configs = [3, 1, 4, 1, 5].length) :=
  ⟨rfl, C6_explicit_configs_returned_verbatim DesignStrategy.base sampleScenario
    [3, 1, 4, 1, 5] (some 10) none sampleExplicitDesign rfl⟩

/-- C7: for every requested count n_configs, the default design's
select_configurations returns exactly one configuration, equal to the
configuration space's defined default configuration. -/
theorem C7_default_design_returns_default (scen : Scenario) (nc : ℕ)
    (nphp : Option ℕ) (d : InitialDesign)
    (h : InitialDesign.make DesignStrategy.defaultDesign scen none (some nc) nphp =
      Except.ok d) :
    d.select_configurations = Except.ok [scen.configspace.defaultConfiguration] := by
  unfold InitialDesign.make resolvedNConfigs at h
  by_cases hlt : scen.configspace.spaceSize < nc
  · simp [hlt] at h
  · simp only [hlt, if_false] at h
    cases h
    rfl

/-- C7 witness: the default design with requested count 10 over the sample
space returns exactly the default configuration 42. -/
theorem C7_default_design_returns_default_holds :
    InitialDesign.make DesignStrategy.defaultDesign sampleScenario none (some 10) none =
        Except.ok sampleDefaultDesign ∧
      sampleDefaultDesign.select_configurations = Except.ok [42] :=
  ⟨rfl, C7_default_design_returns_default sampleScenario 10 none
    sampleDefaultDesign rfl⟩

/-- C8: InitialDesign construction fails with a ConfigurationError in
exactly two cases: the resolved count exceeds the addressable
configurations of the finite space, or none of n_configs, configs and
n_configs_per_hyperparameter is provided; and every construction failure
is a ConfigurationError (the failure happens at construction, before
any selection). -/
theorem C8_construction_validation (strat : DesignStrategy) (scen : Scenario)
    (cfgs : Option (List ℕ)) (nc nphp : Option ℕ) :
    ((∃ msg, InitialDesign.make strat scen cfgs nc nphp =
        Except.error (SMACError.configurationError msg)) ↔
      ((cfgs = none ∧ nc = none ∧ nphp = none) ∨
        ∃ n, resolvedNConfigs scen cfgs nc nphp = some n ∧
          scen.configspace.spaceSize < n)) ∧
    (∀ e, InitialDesign.make strat scen cfgs nc nphp = Except.error e →
      ∃ msg, e = SMACError.configurationError msg) := by
  have hnone : resolvedNConfigs scen cfgs nc nphp = none ↔
      (cfgs = none ∧ nc = none ∧ nphp = none) := by
    rcases cfgs with _ | cs <;> rcases nc with _ | n <;> rcases nphp with _ | k <;>
      simp [resolvedNConfigs]
  unfold InitialDesign.make
  rcases hres : resolvedNConfigs scen cfgs nc nphp with _ | n
  · simp only [hres]
    constructor
    · simp [hnone.mp hres]
    · intro e he
      exact ⟨_, (Except.error.injEq _ _ ▸ he).symm⟩
  · simp only [hres]
    by_cases hlt : scen.configspace.spaceSize < n
    · rw [if_pos hlt]
      constructor
      · constructor
        · intro _
          exact Or.inr ⟨n, rfl, hlt⟩
        · intro _
          exact ⟨_, rfl⟩
      · intro e he
        exact ⟨_, (Except.error.injEq _ _ ▸ he).symm⟩
    · rw [if_neg hlt]
      constructor
      · constructor
        · rintro ⟨msg, hmsg⟩
          cases hmsg
        · rintro (⟨h1, h2, h3⟩ | ⟨m, hm, hmlt⟩)
          · rw [hnone.mpr ⟨h1, h2, h3⟩] at hres
            cases hres
          · cases hm
            exact absurd hmlt hlt
      · intro e he
        cases he

/-- C8 witness: over the 100-configuration sample space, requesting 200
initial configurations fails with a ConfigurationError, and so does
providing none of the three count sources. -/
theorem C8_construction_validation_holds :
    (∃ msg, InitialDesign.make DesignStrategy.base sampleScenario none (some 200) none =
      Except.error (SMACError.configurationError msg)) ∧
    (∃ msg, InitialDesign.make DesignStrategy.base sampleScenario none none none =
      Except.error (SMACError.configurationError msg)) :=
  ⟨(C8_construction_validation DesignStrategy.base sampleScenario none
      (some 200) none).1.mpr
      (Or.inr ⟨200, rfl, by norm_num [sampleScenario, sampleSpace]⟩),
    (C8_construction_validation DesignStrategy.base sampleScenario none
      none none).1.mpr (Or.inl ⟨rfl, rfl, rfl⟩)⟩

/-- C9 counterexample: a base-class InitialDesign constructed with an
explicit configuration list has select_configurations succeed with that
list (as test_multi_config_design requires), so the claim as stated —
every base-class instance fails, never returning a configuration
sequence — is false. -/
theorem C9_base_with_configs_succeeds :
    (InitialDesign.make DesignStrategy.base sampleScenario (some [7]) (some 10) none).map
        InitialDesign.select_configurations = Except.ok (Except.ok [7]) := rfl

/-- C9 (amended): for every base-class InitialDesign constructed without
an explicit configuration list, select_configurations fails with
AbstractNotImplementedError. -/
theorem C9_base_without_configs_raises (scen : Scenario) (nc nphp : Option ℕ)
    (d : InitialDesign)
    (h : InitialDesign.make DesignStrategy.base scen none nc nphp = Except.ok d) :
    d.select_configurations = Except.error SMACError.abstractNotImplemented := by
  unfold InitialDesign.make at h
  split at h
  · cases h
  · split at h
    · cases h
    · cases h
      rfl

/-- C9 witness: the base design with only n_configs = 15 fails with
AbstractNotImplementedError, as in test_select_configurations. -/
theorem C9_base_without_configs_raises_holds :
    InitialDesign.make DesignStrategy.base sampleScenario none (some 15) none =
        Except.ok sampleBaseDesign ∧
      sampleBaseDesign.select_configurations =
        Except.error SMACError.abstractNotImplemented :=
  ⟨rfl, C9_base_without_configs_raises sampleScenario (some 15) none
    sampleBaseDesign rfl⟩

/-- C10: for every Config whose configuration space has more than 21201
hyperparameters, get_initial_design fails with a configuration error
before constructing the SobolInitialDesign; for 21201 or fewer it
constructs and returns the SobolInitialDesign. -/
theorem C10_sobol_dimension_capacity (config : Config) (ics : Option (List ℕ))
    (nphp : ℕ) (mcf : ℚ) :
    (21201 < config.configspace.nHyperparameters →
      ∃ msg, get_initial_design config ics nphp mcf =
        Except.error (SMACError.configurationError msg)) ∧
    (config.configspace.nHyperparameters ≤ 21201 →
      get_initial_design config ics nphp mcf =
        Except.ok { configspace := config.configspace
                    n_runs := config.n_runs
                    configs := ics
                    n_configs_per_hyperparameter := nphp
                    max_config_fracs := mcf
                    seed := config.seed }) := by
  constructor
  · intro h
    exact ⟨_, by unfold get_initial_design; rw [if_pos h]⟩
  · intro h
    unfold get_initial_design
    rw [if_neg (Nat.not_lt.mpr h)]

/-- C10 witness: 21202 hyperparameters are rejected with a configuration
error; the 3-hyperparameter sample config yields the Sobol design. -/
theorem C10_sobol_dimension_capacity_holds :
    (21201 < bigConfig.configspace.nHyperparameters ∧
      ∃ msg, get_initial_design bigConfig none 8 (1 / 4) =
        Except.error (SMACError.configurationError msg)) ∧
    (sampleConfig.configspace.nHyperparameters ≤ 21201 ∧
      get_initial_design sampleConfig none 8 (1 / 4) =
        Except.ok { configspace := sampleConfig.configspace
                    n_runs := sampleConfig.n_runs
                    configs := none
                    n_configs_per_hyperparameter := 8
                    max_config_fracs := 1 / 4
                    seed := sampleConfig.seed }) :=
  ⟨⟨by decide, (C10_sobol_dimension_capacity bigConfig none 8 (1 / 4)).1 (by decide)⟩,
    ⟨by decide, (C10_sobol_dimension_capacity sampleConfig none 8 (1 / 4)).2 (by decide)⟩⟩

end SMAC
